import Mathlib

/-! Shallow embedding of the ModularChatbot React frontend: the input-capture
component (frontend, MessageInput), the conversation controller
(ChatInterface), and the host application (App) that composes them.
JavaScript strings are modelled as Lean strings, nullable strings as
`Option String`, and JavaScript truthiness of a nullable string (null and
the empty string are falsy) as `jsTruthyStr`.
-/

namespace ModularChatbot

/-- One step of the agent workflow metadata attached to an assistant
response: `{agent: string, decision?: string}`. -/
structure WorkflowStep where
  agent : String
  decision : Option String := none
deriving Repr, DecidableEq

/-- One timeline entry, with the fields the ChatInterface component builds
(`message`, `timestamp`, `user_id`, `conversation_id`, optional
`agent_workflow` and `source_agent_response`, optional `isError`). -/
structure Message where
  message : String
  timestamp : String
  user_id : String
  conversation_id : Option String := none
  agent_workflow : Option (List WorkflowStep) := none
  source_agent_response : Option String := none
  isError : Bool := false
deriving Repr, DecidableEq

/-- JavaScript truthiness of a nullable string: `null` and `""` are falsy,
every other string is truthy. -/
def jsTruthyStr : Option String → Bool
  | none => false
  | some s => !s.isEmpty

/-- JavaScript `String.prototype.trim`: remove whitespace from both ends
of the string. -/
def jsTrim (s : String) : String :=
  String.mk (((s.data.dropWhile Char.isWhitespace).reverse.dropWhile
    Char.isWhitespace).reverse)

/-! Input capture (MessageInput component)

Local state of the component: the draft text (`message` React state) and
the IME-composition flag (`isComposing` React state).  The `disabled`
flag is a prop supplied by the conversation controller. -/

/-- Local state of the MessageInput component. -/
structure InputState where
  message : String
  isComposing : Bool
deriving Repr, DecidableEq

/-- The hard length ceiling on the draft (`maxLength = 1000`). -/
def maxLength : Nat := 1000

/-- Embedding of `handleChange`: the edited value replaces the draft only
when its length does not exceed `maxLength`; otherwise the state is
untouched. -/
def handleChange (s : InputState) (value : String) : InputState :=
  if value.length ≤ maxLength then { s with message := value } else s

/-- Embedding of `handleSubmit`: when the trimmed draft is truthy
(non-empty), the component is not disabled and no composition is open,
emit the trimmed draft and clear it; otherwise do nothing.  The first
component of the result is the emission (`onSendMessage` argument),
the second the new local state. -/
def handleSubmit (s : InputState) (disabled : Bool) :
    Option String × InputState :=
  if !(jsTrim s.message).isEmpty && !disabled && !s.isComposing then
    (some (jsTrim s.message), { s with message := "" })
  else
    (none, s)

/-- A keyboard event as seen by `handleKeyDown`. -/
structure KeyEvent where
  key : String
  shiftKey : Bool
deriving Repr, DecidableEq

/-- Embedding of `handleKeyDown`: on Enter without Shift, prevent the
default action and run `handleSubmit`; on any other key do nothing and
leave the default action alone.  The result is (defaultPrevented,
emission, new local state). -/
def handleKeyDown (s : InputState) (disabled : Bool) (e : KeyEvent) :
    Bool × Option String × InputState :=
  if e.key == "Enter" && !e.shiftKey then
    let r := handleSubmit s disabled
    (true, r.1, r.2)
  else
    (false, none, s)

/-! Conversation controller (ChatInterface component)

React state of the component: the timeline (`messages`) and the
`loading` flag (which also drives the composer's `disabled` prop).
The active conversation identifier is a prop owned by App; we carry it
in the state record so that prop changes can be modelled as state
transitions.  Asynchronous requests are split into a synchronous part
(run when the operation starts) and a settlement part (run when the
promise resolves or rejects), each a pure function on the state; the
settlement functions take the conversation identifier that the code
captured in its closure at call time. -/

/-- The body of the `POST /chat` request built by `sendMessage`. -/
structure ChatRequest where
  message : String
  user_id : String
  conversation_id : Option String
deriving Repr, DecidableEq

/-- The data of a successful `POST /chat` response. -/
structure ChatResponse where
  response : String
  timestamp : String
  conversation_id : Option String := none
  agent_workflow : Option (List WorkflowStep) := none
  source_agent_response : Option String := none
deriving Repr, DecidableEq

/-- State of the ChatInterface component: the active conversation
identifier prop, the `messages` React state, and the `loading` React
state. -/
structure ChatState where
  conversationId : Option String
  messages : List Message
  loading : Bool
deriving Repr, DecidableEq

/-- One synchronous effect performed by the body of `sendMessage`:
a functional timeline update, a `setLoading` call, or the dispatch of
the network request. -/
inductive Effect where
  | appendMessage (m : Message) : Effect
  | setLoading (b : Bool) : Effect
  | dispatch (r : ChatRequest) : Effect
deriving Repr, DecidableEq

/-- The optimistic user message that `sendMessage` appends: the raw text,
a client-side timestamp, the user's identifier and the conversation
identifier captured at call time; no `isError` flag. -/
def mkUserMessage (text now userId : String) (convId : Option String) :
    Message :=
  { message := text, timestamp := now, user_id := userId,
    conversation_id := convId }

/-- Embedding of the synchronous part of `sendMessage`, as the ordered
list of effects it performs before control returns to the event loop:
guard on the trimmed text being truthy, then append the optimistic user
message, set `loading` to true, and dispatch the request. -/
def sendMessageSync (convId : Option String) (userId text now : String) :
    List Effect :=
  if (jsTrim text).isEmpty then []
  else
    [Effect.appendMessage (mkUserMessage text now userId convId),
     Effect.setLoading true,
     Effect.dispatch
       { message := text, user_id := userId, conversation_id := convId }]

/-- Interpreting one synchronous effect on the component state.  A
dispatch has no synchronous state effect; its settlement is modelled
separately. -/
def applyEffect (s : ChatState) : Effect → ChatState
  | Effect.appendMessage m => { s with messages := s.messages ++ [m] }
  | Effect.setLoading b => { s with loading := b }
  | Effect.dispatch _ => s

/-- Running a list of synchronous effects in order. -/
def applyEffects (s : ChatState) (effs : List Effect) : ChatState :=
  effs.foldl applyEffect s

/-- The assistant message built from a successful `POST /chat` response,
with the conversation identifier captured by the closure at call time. -/
def mkBotMessage (resp : ChatResponse) (convIdAtCall : Option String) :
    Message :=
  { message := resp.response, timestamp := resp.timestamp,
    user_id := "bot", conversation_id := convIdAtCall,
    agent_workflow := resp.agent_workflow,
    source_agent_response := resp.source_agent_response }

/-- The fixed user-facing text of the synthetic error message appended
when a send fails. -/
def errorText : String :=
  "Desculpe, ocorreu um erro ao processar sua mensagem. Tente novamente."

/-- The synthetic error message appended when a send fails: fixed text,
client-side timestamp, `user_id` "bot", `isError` true. -/
def mkErrorMessage (convIdAtCall : Option String) (now : String) :
    Message :=
  { message := errorText, timestamp := now, user_id := "bot",
    conversation_id := convIdAtCall, isError := true }

/-- Embedding of the success path of `sendMessage`: the functional update
appends the assistant message to whatever timeline is current when the
promise resolves (there is no identity guard), and the `finally` block
clears `loading`.  The second component is the argument with which
`onNewConversation` is invoked, when the captured identifier was falsy
and the response carries a truthy `conversation_id`; `none` means the
callback is not invoked. -/
def sendSettleSuccess (s : ChatState) (convIdAtCall : Option String)
    (resp : ChatResponse) : ChatState × Option String :=
  ({ s with messages := s.messages ++ [mkBotMessage resp convIdAtCall],
            loading := false },
   if !jsTruthyStr convIdAtCall && jsTruthyStr resp.conversation_id then
     resp.conversation_id
   else none)

/-- Embedding of the failure path of `sendMessage` (`catch` plus
`finally`): append the synthetic error message to whatever timeline is
current and clear `loading`. -/
def sendSettleFailure (s : ChatState) (convIdAtCall : Option String)
    (now : String) : ChatState :=
  { s with messages := s.messages ++ [mkErrorMessage convIdAtCall now],
           loading := false }

/-- Embedding of the `useEffect` on `[conversationId]`: a change to a
non-null identifier issues a history fetch and leaves the timeline as it
is until that fetch settles; a change to null empties the timeline
synchronously.  The returned flag records whether a history fetch was
issued. -/
def switchConversation (s : ChatState) (newId : Option String) :
    ChatState × Bool :=
  if jsTruthyStr newId then
    ({ s with conversationId := newId }, true)
  else
    ({ s with conversationId := newId, messages := [] }, false)

/-- Embedding of the settlement of `fetchConversationHistory`: on success
replace the timeline with `response.data.messages || []` (the inner
option models a possibly missing field); on failure replace it with the
empty list.  There is no identity guard against the current
identifier. -/
def historySettle (s : ChatState)
    (result : Option (Option (List Message))) : ChatState :=
  match result with
  | some msgs => { s with messages := msgs.getD [] }
  | none => { s with messages := [] }

/-! Host application (App component) -/

/-- Embedding of the `onNewConversation` prop that App passes to
ChatInterface: it ignores its argument and sets the current conversation
identifier to null. -/
def appOnNewConversation (_newId : String) : Option String :=
  none

/-- The active conversation identifier held by App after a successful
send settles: when the controller invokes `onNewConversation` with the
server identifier, App's handler decides the new value; otherwise the
identifier is unchanged. -/
def activeIdAfterSendSuccess (current : Option String) (s : ChatState)
    (resp : ChatResponse) : Option String :=
  match (sendSettleSuccess s current resp).2 with
  | some newId => appOnNewConversation newId
  | none => current

/-! Workflow metadata rendering (`renderAgentWorkflow`) -/

/-- One rendered workflow row: the agent badge text and, when the code
renders one, the decision label (displayed after an arrow). -/
structure RenderedStep where
  agent : String
  decisionLabel : Option String
deriving Repr, DecidableEq

/-- How `renderAgentWorkflow` renders one step: the agent name always,
and the decision label only when `step.decision` is truthy (present and
non-empty). -/
def renderStep (st : WorkflowStep) : RenderedStep :=
  { agent := st.agent,
    decisionLabel := if jsTruthyStr st.decision then st.decision else none }

/-- Embedding of `renderAgentWorkflow`: a null or empty workflow renders
nothing (`none`); otherwise one row per step, in order. -/
def renderAgentWorkflow (workflow : Option (List WorkflowStep)) :
    Option (List RenderedStep) :=
  match workflow with
  | none => none
  | some steps =>
      if steps.isEmpty then none else some (steps.map renderStep)

/-! Theorems about the input-capture component -/

/-- Claim C6: for every draft state with trimmed text non-empty,
composing false and disabled false, the Enter-without-Shift trigger and
the explicit send action each produce exactly one emission of the
trimmed draft and clear the draft; if any guard fails, the trigger
produces zero emissions and the draft is not cleared. -/
theorem C6_submit_guard (s : InputState) (disabled : Bool) :
    (¬(jsTrim s.message).isEmpty → disabled = false → s.isComposing = false →
        handleSubmit s disabled =
          (some (jsTrim s.message), { s with message := "" }) ∧
        handleKeyDown s disabled { key := "Enter", shiftKey := false } =
          (true, some (jsTrim s.message), { s with message := "" })) ∧
    ((jsTrim s.message).isEmpty ∨ disabled = true ∨ s.isComposing = true →
        handleSubmit s disabled = (none, s) ∧
        handleKeyDown s disabled { key := "Enter", shiftKey := false } =
          (true, none, s)) := by
  constructor
  · intro h1 h2 h3
    have hb : (jsTrim s.message).isEmpty = false := by
      revert h1; cases (jsTrim s.message).isEmpty <;> simp
    subst h2
    constructor <;> simp [handleSubmit, handleKeyDown, hb, h3]
  · rintro (h | h | h) <;>
      constructor <;> simp [handleSubmit, handleKeyDown, h]

/-- Witness for C6 at a concrete draft: "  oi  " trims to "oi", is
emitted once and the draft is cleared. -/
theorem C6_submit_guard_witness :
    handleSubmit { message := "  oi  ", isComposing := false } false =
      (some "oi", { message := "", isComposing := false }) :=
  ((C6_submit_guard { message := "  oi  ", isComposing := false } false).1
    (by decide) rfl rfl).1

/-- Claim C7: an edit whose resulting text has length at most 1000
replaces the draft verbatim; an edit whose resulting text is longer
leaves the draft completely unchanged. -/
theorem C7_length_guard (s : InputState) (v : String) :
    (v.length ≤ maxLength → handleChange s v = { s with message := v }) ∧
    (maxLength < v.length → handleChange s v = s) := by
  constructor
  · intro h
    simp [handleChange, h]
  · intro h
    simp only [handleChange]
    rw [if_neg (by omega)]

/-- Witness for C7 at a concrete edit: "abc" has length at most 1000 and
replaces the draft verbatim. -/
theorem C7_length_guard_witness :
    handleChange { message := "", isComposing := false } "abc" =
      { message := "abc", isComposing := false } :=
  (C7_length_guard { message := "", isComposing := false } "abc").1
    (by decide)

/-- Counterexample to claim C10 as stated: an Enter keypress without
Shift on the non-empty draft "hi" (not composing, not disabled) does
modify the draft — it submits and clears it to the empty string. -/
theorem C10_counterexample :
    (handleKeyDown { message := "hi", isComposing := false } false
        { key := "Enter", shiftKey := false }).2.2 ≠
      { message := "hi", isComposing := false } := by
  decide

/-- Claim C10 as amended: every Enter keypress without Shift suppresses
the default key action unconditionally; when a submission guard fails
the trigger emits nothing and leaves the draft unchanged (in particular
no line break is inserted); and in every case the draft afterwards is
either the old draft or the empty string — Enter without Shift never
inserts a line break, and the only modification it can make is the
clearing performed by a successful submit. -/
theorem C10_enter_suppresses_default (s : InputState) (disabled : Bool)
    (e : KeyEvent) (hk : e.key = "Enter") (hs : e.shiftKey = false) :
    (handleKeyDown s disabled e).1 = true ∧
    ((jsTrim s.message).isEmpty ∨ disabled = true ∨ s.isComposing = true →
        (handleKeyDown s disabled e).2 = (none, s)) ∧
    ((handleKeyDown s disabled e).2.2.message = s.message ∨
        (handleKeyDown s disabled e).2.2.message = "") := by
  obtain ⟨k, sh⟩ := e
  simp only at hk hs
  subst hk; subst hs
  refine ⟨by simp [handleKeyDown, handleSubmit], ?_, ?_⟩
  · rintro (h | h | h) <;> simp [handleKeyDown, handleSubmit, h]
  · by_cases hg : (!(jsTrim s.message).isEmpty && !disabled && !s.isComposing)
      = true
    · right; simp [handleKeyDown, handleSubmit, hg]
    · left
      simp [handleKeyDown, handleSubmit,
        Bool.eq_false_iff.mpr (fun hc => hg hc)]

/-- Witness for C10 as amended, at a composing draft: Enter without
Shift prevents the default, emits nothing and leaves the draft
unchanged. -/
theorem C10_enter_suppresses_default_witness :
    (handleKeyDown { message := "hi", isComposing := true } false
        { key := "Enter", shiftKey := false }).1 = true ∧
    (handleKeyDown { message := "hi", isComposing := true } false
        { key := "Enter", shiftKey := false }).2 =
      (none, { message := "hi", isComposing := true }) :=
  ⟨(C10_enter_suppresses_default { message := "hi", isComposing := true }
      false { key := "Enter", shiftKey := false } rfl rfl).1,
   (C10_enter_suppresses_default { message := "hi", isComposing := true }
      false { key := "Enter", shiftKey := false } rfl rfl).2.1
     (Or.inr (Or.inr rfl))⟩

/-! Theorems about the conversation controller -/

/-- Claim C3: for every send operation with non-empty trimmed text, the
optimistic user message is appended to the timeline synchronously and
strictly before the remote send request is dispatched: in the ordered
synchronous effect list of `sendMessage`, the dispatch occurs at some
position, the append of the user message occurs before it, and no
dispatch occurs before the append. -/
theorem C3_optimistic_append_before_dispatch (convId : Option String)
    (userId text now : String) (h : ¬(jsTrim text).isEmpty) :
    ∃ pre post r,
      sendMessageSync convId userId text now =
        pre ++ Effect.dispatch r :: post ∧
      Effect.appendMessage (mkUserMessage text now userId convId) ∈ pre ∧
      ∀ r2, Effect.dispatch r2 ∉ pre := by
  have hb : (jsTrim text).isEmpty = false := by
    revert h; cases (jsTrim text).isEmpty <;> simp
  refine ⟨[Effect.appendMessage (mkUserMessage text now userId convId),
           Effect.setLoading true], [],
          { message := text, user_id := userId, conversation_id := convId },
          ?_, ?_, ?_⟩
  · simp [sendMessageSync, hb]
  · simp
  · intro r2
    simp

/-- Witness for C3 at a concrete send: "oi" has non-empty trim, and the
effect list puts the optimistic append before the dispatch. -/
theorem C3_optimistic_append_before_dispatch_witness :
    ∃ pre post r,
      sendMessageSync (some "conv-1") "user-1" "oi" "t1" =
        pre ++ Effect.dispatch r :: post ∧
      Effect.appendMessage (mkUserMessage "oi" "t1" "user-1"
        (some "conv-1")) ∈ pre ∧
      ∀ r2, Effect.dispatch r2 ∉ pre :=
  C3_optimistic_append_before_dispatch (some "conv-1") "user-1" "oi" "t1"
    (by decide)

/-- Claim C4: at most one send is outstanding at a time.  While the
composer is disabled, the explicit send action and the keyboard trigger
each produce zero emissions; and in the synchronous effect list of
`sendMessage` the `setLoading true` step (which disables the composer)
occurs in the same synchronous step as the optimistic append, before the
request is dispatched. -/
theorem C4_at_most_one_send :
    (∀ s : InputState, handleSubmit s true = (none, s)) ∧
    (∀ (s : InputState) (e : KeyEvent),
        (handleKeyDown s true e).2.1 = none) ∧
    (∀ (convId : Option String) (userId text now : String),
        ¬(jsTrim text).isEmpty →
          ∃ pre post r,
            sendMessageSync convId userId text now =
              pre ++ Effect.dispatch r :: post ∧
            Effect.setLoading true ∈ pre ∧
            Effect.appendMessage (mkUserMessage text now userId convId)
              ∈ pre) := by
  refine ⟨?_, ?_, ?_⟩
  · intro s
    simp [handleSubmit]
  · intro s e
    by_cases hk : (e.key == "Enter" && !e.shiftKey) = true
    · simp [handleKeyDown, hk, handleSubmit]
    · simp [handleKeyDown, hk]
  · intro convId userId text now h
    have hb : (jsTrim text).isEmpty = false := by
      revert h; cases (jsTrim text).isEmpty <;> simp
    refine ⟨[Effect.appendMessage (mkUserMessage text now userId convId),
             Effect.setLoading true], [],
            { message := text, user_id := userId,
              conversation_id := convId }, ?_, ?_, ?_⟩
    · simp [sendMessageSync, hb]
    · simp
    · simp

/-- Witness for C4 at concrete inputs: a disabled composer emits nothing
for the explicit action and for Enter, and a concrete send sets the
disable flag in its synchronous effect list before the dispatch. -/
theorem C4_at_most_one_send_witness :
    handleSubmit { message := "oi", isComposing := false } true =
      (none, { message := "oi", isComposing := false }) ∧
    (handleKeyDown { message := "oi", isComposing := false } true
        { key := "Enter", shiftKey := false }).2.1 = none ∧
    (∃ pre post r,
        sendMessageSync (some "conv-1") "user-1" "oi" "t1" =
          pre ++ Effect.dispatch r :: post ∧
        Effect.setLoading true ∈ pre ∧
        Effect.appendMessage (mkUserMessage "oi" "t1" "user-1"
          (some "conv-1")) ∈ pre) :=
  ⟨C4_at_most_one_send.1 { message := "oi", isComposing := false },
   C4_at_most_one_send.2.1 { message := "oi", isComposing := false }
     { key := "Enter", shiftKey := false },
   C4_at_most_one_send.2.2 (some "conv-1") "user-1" "oi" "t1" (by decide)⟩

/-- Claim C5: for every send that fails, exactly one `isError` message
with the fixed user-facing text is appended after the optimistic user
message, the optimistic user message is neither removed nor altered, and
`loading` (the composer-disable flag) returns to false. -/
theorem C5_send_failure_appends_one_error (s : ChatState)
    (userId text now now2 : String) (h : ¬(jsTrim text).isEmpty) :
    (sendSettleFailure
        (applyEffects s (sendMessageSync s.conversationId userId text now))
        s.conversationId now2).messages =
      s.messages ++ [mkUserMessage text now userId s.conversationId,
                     mkErrorMessage s.conversationId now2] ∧
    (mkErrorMessage s.conversationId now2).isError = true ∧
    (mkErrorMessage s.conversationId now2).message = errorText ∧
    (sendSettleFailure
        (applyEffects s (sendMessageSync s.conversationId userId text now))
        s.conversationId now2).loading = false := by
  have hb : (jsTrim text).isEmpty = false := by
    revert h; cases (jsTrim text).isEmpty <;> simp
  refine ⟨?_, rfl, rfl, ?_⟩
  · simp [sendMessageSync, hb, applyEffects, applyEffect,
      sendSettleFailure, List.foldl]
  · simp [sendMessageSync, hb, applyEffects, applyEffect,
      sendSettleFailure, List.foldl]

/-- Witness for C5 at a concrete failing send. -/
theorem C5_send_failure_appends_one_error_witness :
    (sendSettleFailure
        (applyEffects
          { conversationId := some "conv-1", messages := [],
            loading := false }
          (sendMessageSync (some "conv-1") "user-1" "oi" "t1"))
        (some "conv-1") "t2").messages =
      [mkUserMessage "oi" "t1" "user-1" (some "conv-1"),
       mkErrorMessage (some "conv-1") "t2"] ∧
    (mkErrorMessage (some "conv-1") "t2").isError = true := by
  have h := C5_send_failure_appends_one_error
    { conversationId := some "conv-1", messages := [], loading := false }
    "user-1" "oi" "t1" "t2" (by decide)
  exact ⟨h.1, h.2.1⟩

/-- Claim C8: the settlement of a history fetch populates the timeline
with the empty sequence on failure (so no error message is appended or
surfaced), and with the server-returned message sequence, in
server-returned order, on success. -/
theorem C8_history_fetch (s : ChatState)
    (result : Option (Option (List Message))) :
    (result = none → historySettle s result = { s with messages := [] }) ∧
    (∀ msgs, result = some (some msgs) →
        (historySettle s result).messages = msgs) ∧
    (∀ m, m ∈ (historySettle s none).messages → False) := by
  refine ⟨?_, ?_, ?_⟩
  · intro h
    subst h
    rfl
  · intro msgs h
    subst h
    rfl
  · intro m hm
    simp [historySettle] at hm

/-- Witness for C8 at a concrete fetch: a failed fetch yields the empty
timeline and a successful fetch yields the server's sequence. -/
theorem C8_history_fetch_witness :
    historySettle
        { conversationId := some "conv-1",
          messages := [mkUserMessage "old" "t0" "user-1" (some "conv-0")],
          loading := false } none =
      { conversationId := some "conv-1", messages := [],
        loading := false } ∧
    (historySettle
        { conversationId := some "conv-1", messages := [],
          loading := false }
        (some (some [mkUserMessage "oi" "t1" "user-1"
          (some "conv-1")]))).messages =
      [mkUserMessage "oi" "t1" "user-1" (some "conv-1")] :=
  ⟨(C8_history_fetch
      { conversationId := some "conv-1",
        messages := [mkUserMessage "old" "t0" "user-1" (some "conv-0")],
        loading := false } none).1 rfl,
   (C8_history_fetch
      { conversationId := some "conv-1", messages := [], loading := false }
      (some (some [mkUserMessage "oi" "t1" "user-1"
        (some "conv-1")]))).2.1 _ rfl⟩

/-! Theorems about workflow rendering -/

/-- A step's rendering as described by the spec's words: show the
decision label whenever the decision field is present. -/
def renderStepSpec (st : WorkflowStep) : RenderedStep :=
  { agent := st.agent, decisionLabel := st.decision }

/-- Counterexample to claim C9 as stated: a step whose decision field is
present but holds the empty string is rendered without its decision
label, because the code tests the field for truthiness, not presence. -/
theorem C9_counterexample :
    renderAgentWorkflow (some [{ agent := "A", decision := some "" }]) =
      some [{ agent := "A", decisionLabel := none }] ∧
    renderAgentWorkflow (some [{ agent := "A", decision := some "" }]) ≠
      some ([{ agent := "A", decision := some "" }].map renderStepSpec) := by
  constructor
  · rfl
  · decide

/-- Claim C9 as amended: for a non-empty workflow sequence the rendering
emits one row per step in the original order, each showing the step's
agent name and, when the decision field is present *and non-empty*, its
decision label; an absent or empty sequence renders nothing
additional. -/
theorem C9_workflow_rendering (workflow : Option (List WorkflowStep)) :
    (∀ steps, workflow = some steps → steps ≠ [] →
        renderAgentWorkflow workflow =
          some (steps.map fun st =>
            { agent := st.agent,
              decisionLabel :=
                match st.decision with
                | some d => if d.isEmpty then none else some d
                | none => none })) ∧
    (workflow = none ∨ workflow = some [] →
        renderAgentWorkflow workflow = none) := by
  constructor
  · intro steps hw hne
    subst hw
    have hne2 : steps.isEmpty = false := by
      cases steps with
      | nil => exact absurd rfl hne
      | cons a l => rfl
    simp only [renderAgentWorkflow, hne2, Bool.false_eq_true, if_false]
    congr 1
    apply List.map_congr_left
    intro st _
    cases hd : st.decision with
    | none => simp [renderStep, jsTruthyStr, hd]
    | some d =>
        cases he : d.isEmpty <;>
          simp [renderStep, jsTruthyStr, hd, he]
  · rintro (h | h) <;> subst h <;> rfl

/-- Witness for C9 as amended, at the spec's example workflow: one step
rendered with agent "RouterAgent" and decision label "KnowledgeAgent". -/
theorem C9_workflow_rendering_witness :
    renderAgentWorkflow
        (some [{ agent := "RouterAgent",
                 decision := some "KnowledgeAgent" }]) =
      some [{ agent := "RouterAgent",
              decisionLabel := some "KnowledgeAgent" }] := by
  have h := (C9_workflow_rendering
    (some [{ agent := "RouterAgent",
             decision := some "KnowledgeAgent" }])).1 _ rfl (by decide)
  simpa using h

/-! The conversation-identifier adoption bug (claim C1)

`sendMessage` invokes `onNewConversation` with the server-returned
`conversation_id` when the captured identifier was null, but App's
handler for that prop ignores its argument and resets the current
conversation identifier to null, so the server identifier is never
adopted. -/

/-- The success response of the spec's C1 scenario: `"Olá!"` with server
identifier "conv-9" and a one-step workflow. -/
def respConv9 : ChatResponse :=
  { response := "Olá!", timestamp := "2024-01-01T12:00:00Z",
    conversation_id := some "conv-9",
    agent_workflow := some [{ agent := "RouterAgent",
                              decision := some "KnowledgeAgent" }] }

/-- The controller state after the synchronous part of a send performed
while the active conversation identifier is null. -/
def c1AfterSync : ChatState :=
  applyEffects { conversationId := none, messages := [], loading := false }
    (sendMessageSync none "user-1" "Olá" "t1")

/-- Claim C1 evaluated on the code: the controller does invoke
`onNewConversation` with the server-returned "conv-9", but App's handler
discards it, so the active identifier afterwards is null, not "conv-9". -/
theorem C1_server_id_not_adopted :
    (sendSettleSuccess c1AfterSync none respConv9).2 = some "conv-9" ∧
    appOnNewConversation "conv-9" = none ∧
    activeIdAfterSendSuccess none c1AfterSync respConv9 = none ∧
    activeIdAfterSendSuccess none c1AfterSync respConv9 ≠
      some "conv-9" := by
  refine ⟨rfl, rfl, rfl, ?_⟩
  decide

/-! The stale-settlement race (claim C2)

Switching the active conversation identifier neither clears the timeline
synchronously (for a non-null new identifier) nor installs any identity
guard on pending settlements, so a late-arriving response from a send
started under the previous identifier is appended to the new
identifier's timeline. -/

/-- The late-arriving success response of the send started under
"conv-1". -/
def c2resp : ChatResponse :=
  { response := "Olá! Aqui está a resposta.", timestamp := "t2",
    conversation_id := some "conv-1" }

/-- Initial state of the C2 trace: conversation "conv-1" open with an
empty timeline. -/
def c2s0 : ChatState :=
  { conversationId := some "conv-1", messages := [], loading := false }

/-- After the synchronous part of a send under "conv-1". -/
def c2s1 : ChatState :=
  applyEffects c2s0 (sendMessageSync (some "conv-1") "user-1" "oi" "t1")

/-- After the user switches to "conv-2" while that send is in flight. -/
def c2s2 : ChatState := (switchConversation c2s1 (some "conv-2")).1

/-- After the history fetch for "conv-2" settles with an empty history. -/
def c2s3 : ChatState := historySettle c2s2 (some (some []))

/-- After the stale send settlement (captured identifier "conv-1")
finally resolves. -/
def c2s4 : ChatState := (sendSettleSuccess c2s3 (some "conv-1") c2resp).1

/-- Claim C2 evaluated on the code: switching to "conv-2" leaves the old
timeline in place (it is not cleared immediately), and the late
settlement of the "conv-1" send appends its assistant message — still
tagged with "conv-1" — to the timeline now owned by "conv-2". -/
theorem C2_stale_settlement_pollutes_new_timeline :
    c2s2.messages = c2s1.messages ∧
    c2s1.messages ≠ [] ∧
    c2s4.conversationId = some "conv-2" ∧
    mkBotMessage c2resp (some "conv-1") ∈ c2s4.messages ∧
    (mkBotMessage c2resp (some "conv-1")).conversation_id =
      some "conv-1" := by
  refine ⟨rfl, ?_, rfl, ?_, rfl⟩
  · decide
  · decide

end ModularChatbot
